import Mathlib

/-!
Verification of the ngspice-connect binding layer (`src/ngspicex/__init__.py`)
against its natural-language specification.

The Python source is shallowly embedded: Python floats are modelled as exact
rationals (`Rat`), decoded byte strings as `String`, ctypes NULL-able data
pointers as `Option (List Rat)`, raised exceptions as explicit error results,
and the mutable `NgSpice` object as an explicit state record threaded through
the operations.  The native ngspice engine is external; its observable calls
are recorded in the state and its outcomes (return codes, raised exceptions)
are passed in as parameters.
-/

namespace Ngspicex

/- ************************************************************************
   Character-level helpers shared by the embeddings of the Python regular
   expressions and string operations.  All string processing is done on
   `List Char` (the decoded code points), mirroring Python `str` semantics
   for the ASCII-only patterns the source uses.
   ************************************************************************ -/

/-- Python regex `\w` on the ASCII-ish names ngspice emits: letters, digits
and underscore. -/
def isWordChar (c : Char) : Bool :=
  c.isAlphanum || c = '_'

/-- Python regex `\s`: the six ASCII whitespace characters. -/
def isSpaceChar (c : Char) : Bool :=
  c = ' ' || c = '\t' || c = '\n' || c = '\r' || c = '\x0b' || c = '\x0c'

/-- `value.startswith(p)` for a decoded string (the source checks the byte
prefix `b"stdout"`/`b"stderr"`; for these pure-ASCII tags the byte test and
the code-point test agree). -/
def strStartsWith (s p : String) : Bool :=
  s.toList.take p.toList.length == p.toList

/-- `value[n:]` on a Python `str`: drop the first `n` code points. -/
def strDrop (s : String) (n : Nat) : String :=
  String.mk (s.toList.drop n)

/-- Value of a digit run, most significant first (used by the model of
Python `float()` on the decimal strings captured by the statistics regex). -/
def digitsToNat (ds : List Char) : Nat :=
  ds.foldl (fun a c => a * 10 + (c.toNat - '0'.toNat)) 0

/-- Longest suffix made of `\w` characters (the greedy `(\w+)` group of an
end-anchored search). -/
def wordSuffix (cs : List Char) : List Char :=
  (cs.reverse.takeWhile isWordChar).reverse

/-- Embedding of the branch-current renaming in `NgSpice.get_all_vectors`
(source lines 506–509):

    match_branch = re.search(r"(\w+)#branch$", vec_name)
    if match_branch:
        vec_name = "i(" + match_branch.group(1) + ")"

The pattern matches iff `vec_name` ends with `#branch` preceded by at least
one `\w` character; group 1 is the maximal `\w` run just before `#branch`. -/
def normalizeBranch (name : String) : String :=
  let cs := name.toList
  let suffix := ['#', 'b', 'r', 'a', 'n', 'c', 'h']
  if cs.length ≥ 7 ∧ cs.drop (cs.length - 7) = suffix then
    let g := wordSuffix (cs.take (cs.length - 7))
    if g = [] then name else "i(" ++ String.mk g ++ ")"
  else name

/- ************************************************************************
   VectorInfo: the ctypes structure wrapping a transient engine vector
   (source lines 38–87).  `v_realdata` is `none` when the C pointer is NULL;
   `v_length` is the `v_length` field, which `__len__` returns.
   ************************************************************************ -/

structure VectorInfo where
  v_name : String
  v_realdata : Option (List Rat)
  v_length : Nat
  deriving Repr, DecidableEq

/-- `len(self)` (source lines 52–54). -/
def VectorInfo.lenOf (v : VectorInfo) : Nat := v.v_length

/-- The key passed to `VectorInfo.__getitem__`: a Python `int`, a `slice`
(start/stop, step always `None` in every call site of the source), or any
other object. -/
inductive Key where
  | int : Int → Key
  | slice : Option Int → Option Int → Key
  | other : Key
  deriving Repr, DecidableEq

/-- Result of `VectorInfo.__getitem__`: a real scalar, a list of reals,
Python `None` (NULL `v_realdata`), or a raised exception. -/
inductive ItemResult where
  | val : Rat → ItemResult
  | vals : List Rat → ItemResult
  | noData : ItemResult
  | indexError : String → ItemResult
  | typeError : ItemResult
  deriving Repr, DecidableEq

/-- ctypes pointer slicing `p[s:e]` with step `None`: the elements at offsets
`s, s+1, …, e-1`, empty when `e ≤ s`.  On every path reachable from
`__getitem__` the offsets read lie inside the buffer `d`. -/
def ptrSlice (d : List Rat) (s e : Int) : List Rat :=
  if s < e then (d.drop s.toNat).take (e - s).toNat else []

/-- Python truthiness of `key.start` / `key.stop`: `None` and `0` are falsy. -/
def truthyOptInt : Option Int → Bool
  | Option.none => false
  | some n => n != 0

/-- Embedding of `VectorInfo.__getitem__` (source lines 56–79):

    if isinstance(key, int):
        if (key < 0) | (key >= len(self)):
            raise IndexError
    elif isinstance(key, slice):
        if not key.stop:
            key = slice(key.start, len(self), key.step)
        if key.start:
            if (key.start < 0):
                raise IndexError("Index cannot be negative")
        if key.stop:
            if (key.stop > len(self)):
                raise IndexError("Index too large")
    else:
        raise TypeError
    if (bool(self.v_realdata)):
        return self.v_realdata[key]
    else:
        return None
-/
def VectorInfo.getitem (v : VectorInfo) : Key → ItemResult
  | Key.int k =>
    if k < 0 || k ≥ (v.lenOf : Int) then ItemResult.indexError ""
    else
      match v.v_realdata with
      | some d => ItemResult.val (d.getD k.toNat 0)
      | Option.none => ItemResult.noData
  | Key.slice start stop =>
    let stop := if !truthyOptInt stop then some (v.lenOf : Int) else stop
    if truthyOptInt start && start.getD 0 < 0 then
      ItemResult.indexError "Index cannot be negative"
    else if truthyOptInt stop && stop.getD 0 > (v.lenOf : Int) then
      ItemResult.indexError "Index too large"
    else
      match v.v_realdata with
      | some d => ItemResult.vals (ptrSlice d (start.getD 0) (stop.getD 0))
      | Option.none => ItemResult.noData
  | Key.other => ItemResult.typeError

/-- A pandas `Series` as the source builds it: a name and the (possibly
absent, when `v_realdata` is NULL) copied data. -/
structure PySeries where
  name : String
  data : Option (List Rat)
  deriving Repr, DecidableEq

/-- Embedding of `VectorInfo.as_series` (source lines 81–83):

    return Series(name=self.v_name.decode(), data=self[:])

`self[:]` is the slice key with `start = stop = None`; on that key
`__getitem__` can only return a list or `None`, never raise. -/
def VectorInfo.as_series (v : VectorInfo) : PySeries :=
  { name := v.v_name
    data :=
      match v.getitem (Key.slice Option.none Option.none) with
      | ItemResult.vals l => some l
      | _ => Option.none }

/- ************************************************************************
   The engine-side environment.  The native library is external; the model
   only needs the vector directory (`ngSpice_AllVecs`) and the per-vector
   query (`ngGet_Vec_Info`), both supplied as an abstract environment.
   ************************************************************************ -/

structure Engine where
  vecsOf : String → List String
  vecInfo : String → VectorInfo

/-- Embedding of `NgSpice.get_all_vecs` (source lines 442–462): each vector
name returned by the engine is qualified as `<plot>.<vector>`. -/
def get_all_vecs (e : Engine) (plot : String) : List String :=
  (e.vecsOf plot).map (fun v => plot ++ "." ++ v)

/-- Embedding of `NgSpice.get_all_vectors` (source lines 494–510): for each
qualified name, fetch the transient `VectorInfo`, rename a `<node>#branch`
vector to `i(<node>)`, and copy the data (`df[vec_name] = vec_info[:]`).
The DataFrame is modelled as the list of its columns in insertion order. -/
def get_all_vectors (e : Engine) (plot : String) : List (String × List Rat) :=
  (get_all_vecs e plot).map (fun v =>
    let vi := e.vecInfo v
    let nm := normalizeBranch vi.v_name
    (nm, match vi.getitem (Key.slice Option.none Option.none) with
         | ItemResult.vals l => l
         | _ => []))

/-- Embedding of `NgSpice.get_vector` (source lines 481–492):
`self._get_vec_info(vector).as_series()`. -/
def get_vector (e : Engine) (vector : String) : PySeries :=
  (e.vecInfo vector).as_series

/- ************************************************************************
   NgSpice object state.  Mutable attributes of the Python object become a
   record; traces record the observable effects: lines sent to the message
   sink (`write`), bare `print` output, `pbar.update` deltas, `pbar.close`
   calls, and the commands/circuits forwarded to the native engine.
   ************************************************************************ -/

structure NgState where
  attached : Bool
  silent : Bool
  msg : String
  use_progress_bar : Bool
  pbar : Option String
  pbar_value : Rat
  sink : List String
  printed : List String
  pbar_updates : List Rat
  pbar_closes : Nat
  engine_calls : List String
  engine_circs : List (List String)
  deriving Repr, DecidableEq

/-- State right after `NgSpice.__init__` (source lines 316–329):
`_attached = True`, `_silent = False`, `_msg = ""`, `pbar = None`,
`pbar_value = 0.0`, with empty traces. -/
def initState (use_pb : Bool) : NgState :=
  { attached := true
    silent := false
    msg := ""
    use_progress_bar := use_pb
    pbar := Option.none
    pbar_value := 0
    sink := []
    printed := []
    pbar_updates := []
    pbar_closes := 0
    engine_calls := []
    engine_circs := [] }

/-- Embedding of `NgSpice.write` (source lines 134–143):

    self._msg = msg
    if not self._silent:
        if self.pbar:
            self.pbar.write(msg)
        else:
            stdout.write(msg + '\n')

Both output channels (`pbar.write` and `stdout.write`) are user-visible
message sinks and are recorded in the single `sink` trace. -/
def write (s : NgState) (msg : String) : NgState :=
  let s1 := { s with msg := msg }
  if !s1.silent then { s1 with sink := s1.sink ++ [msg] } else s1

/-- Embedding of the character-output callback `ng_send_char_inner`
(source lines 161–170): a line whose bytes start with `stdout` or `stderr`
has its first six characters stripped (`value.decode()[len("stdout"):]`);
anything else is routed unchanged. -/
def ng_send_char_inner (s : NgState) (value : String) : NgState :=
  if strStartsWith value "stdout" then write s (strDrop value 6)
  else if strStartsWith value "stderr" then write s (strDrop value 6)
  else write s value

/-- Tail of the statistics pattern after the numeric group has been read
(reversed input): at least one `\s`, then `:`, then the greedy `(\w+)` group.
`num = none` marks a line where the numeric group is empty, on which the
source's `float(...)` would raise inside the callback; modelled as no match
(no claim exercises such a line). -/
def matchPercentTail (r : List Char) (num : Option Rat) : Option (String × Rat) :=
  match num with
  | Option.none => Option.none
  | some n =>
    match r with
    | c :: cs =>
      if isSpaceChar c then
        match cs.dropWhile isSpaceChar with
        | ':' :: r5 =>
          let g := r5.takeWhile isWordChar
          if g = [] then Option.none else some (String.mk g.reverse, n)
        | _ => Option.none
      else Option.none
    | [] => Option.none

/-- Embedding of the statistics pattern search (source lines 185–186):

    match_percent = re.search(r"(\w+):\s+([0-9]*.?[0-9]*)%\s*$", value.decode())

with `float(match_percent.group(2))` applied to the numeric group.  The
pattern is end-anchored, so the match is reconstructed from the right of the
line: optional trailing whitespace, `%`, the numeric group (digits, an
optional decimal point — the pattern's unescaped dot in its intended use —
and more digits), at least one whitespace character, `:`, and the greedy word
group.  Returns the captured label and the parsed percentage. -/
def matchPercent (value : String) : Option (String × Rat) :=
  match value.toList.reverse.dropWhile isSpaceChar with
  | '%' :: r1 =>
    let fracR := r1.takeWhile Char.isDigit
    let r2 := r1.dropWhile Char.isDigit
    match r2 with
    | '.' :: rest =>
      let intR := rest.takeWhile Char.isDigit
      matchPercentTail (rest.dropWhile Char.isDigit)
        (if fracR = [] ∧ intR = [] then Option.none
         else some (mkRat (digitsToNat intR.reverse * 10 ^ fracR.length +
             digitsToNat fracR.reverse) (10 ^ fracR.length)))
    | _ =>
      matchPercentTail r2
        (if fracR = [] then Option.none
         else some (mkRat (digitsToNat fracR.reverse) 1))
  | _ => Option.none

/-- Embedding of the statistics callback `ng_send_stat_inner`
(source lines 183–206):

    match_percent = re.search(...)
    if not self._silent:
        if match_percent:
            name = group(1); percentage = float(group(2))
            if self.pbar:
                self.pbar.update(percentage - self.pbar_value)
                self.pbar_value = percentage
                if percentage >= 99.9:
                    self.pbar.update(100.0 - self.pbar_value)
                    self.pbar.close()
                    self.pbar = None
            else:
                if self.use_progress_bar:
                    self.pbar = tqdm(desc=name, total=100.0, unit='%')
                    self.pbar_value = 0.0
        else:
            self.write(value.decode())

The tqdm object is modelled by its description label; `update` deltas and
`close` calls are recorded in the traces. -/
def ng_send_stat_inner (s : NgState) (value : String) : NgState :=
  let m := matchPercent value
  if !s.silent then
    match m with
    | some (nm, percentage) =>
      match s.pbar with
      | some _ =>
        let s1 := { s with
          pbar_updates := s.pbar_updates ++ [percentage - s.pbar_value]
          pbar_value := percentage }
        if percentage ≥ 999 / 10 then
          { s1 with
            pbar_updates := s1.pbar_updates ++ [100 - s1.pbar_value]
            pbar_closes := s1.pbar_closes + 1
            pbar := Option.none }
        else s1
      | Option.none =>
        if s.use_progress_bar then
          { s with pbar := some nm, pbar_value := 0 }
        else s
    | Option.none => write s value
  else s

/-- A sequence of statistics-callback invocations. -/
def runStats (s : NgState) (lines : List String) : NgState :=
  lines.foldl ng_send_stat_inner s

/-- Outcome of a native engine call made through ctypes: it returns normally
or an exception propagates out of it (e.g. raised inside a callback). -/
inductive CallOutcome where
  | ok : CallOutcome
  | raises : CallOutcome
  deriving Repr, DecidableEq

/-- Exceptions the dispatcher itself raises. -/
inductive PyError where
  | runtimeError : PyError
  deriving Repr, DecidableEq

/-- Embedding of `NgSpice.send_cmd` (source lines 352–365):

    self._silent = silent
    self.ng.ngSpice_Command(cmd)
    self._silent = False

`cmd` is a `str`, so the `TypeError` branch for non-text arguments cannot
fire.  The native call is recorded in `engine_calls`; `outcome` tells whether
it raised.  The returned flag is true when an exception propagates to the
caller — in that case the final `self._silent = False` (line 365) never runs,
as the source has no try/finally. -/
def send_cmd (s : NgState) (cmd : String) (silent : Bool) (outcome : CallOutcome) :
    NgState × Bool :=
  let s1 := { s with silent := silent }
  let s2 := { s1 with engine_calls := s1.engine_calls ++ [cmd] }
  match outcome with
  | CallOutcome.ok => ({ s2 with silent := false }, false)
  | CallOutcome.raises => (s2, true)

/-- Embedding of `NgSpice.send_circ` (source lines 367–393):

    for i, v in enumerate(args):
        if not isinstance(v, str): raise ValueError
        circ_array[i] = v.encode('utf-8')
    if 'silent' in kwargs:
        self._silent = kwargs['silent']
    ret = self.ng.ngSpice_Circ(circ_array)
    if ret != 0:
        raise RuntimeError("Error while loading circuit")
    self._silent = False

`args` is a list of `str`, so the `ValueError` branch cannot fire.  `ret` is
the engine's return status for `ngSpice_Circ`; the forwarded circuit is
recorded in `engine_circs`.  When `ret ≠ 0` the `RuntimeError` is raised
before the `self._silent = False` on line 393. -/
def send_circ (s : NgState) (args : List String) (silentKw : Option Bool) (ret : Int) :
    NgState × Option PyError :=
  let s1 :=
    match silentKw with
    | some b => { s with silent := b }
    | Option.none => s
  let s2 := { s1 with engine_circs := s1.engine_circs ++ [args] }
  if ret ≠ 0 then (s2, some PyError.runtimeError)
  else ({ s2 with silent := false }, Option.none)

/-- Embedding of `NgSpice.quit` (source lines 418–424):

    if self._attached:
        self.send_cmd("quit")
        self._attached = False
    else:
        print("DLL already detached...")

The returned flag is true when the inner `send_cmd` raised (then line 422
never runs and the handle stays attached). -/
def quit (s : NgState) (outcome : CallOutcome) : NgState × Bool :=
  if s.attached then
    let r := send_cmd s "quit" false outcome
    if r.2 then r else ({ r.1 with attached := false }, false)
  else
    ({ s with printed := s.printed ++ ["DLL already detached..."] }, false)

/- ************************************************************************
   Helper lemmas.
   ************************************************************************ -/

lemma ptrSlice_of_le (d : List Rat) (k : Nat) (hk : k ≤ d.length) :
    ptrSlice d (k : Int) (d.length : Int) = d.drop k := by
  unfold ptrSlice
  by_cases h : (k : Int) < (d.length : Int)
  · rw [if_pos h]
    have h1 : ((d.length : Int) - (k : Int)).toNat = d.length - k := by omega
    have h2 : ((k : Int)).toNat = k := by omega
    rw [h1, h2]
    have h3 : (d.drop k).length = d.length - k := by simp
    rw [← h3, List.take_length]
  · rw [if_neg h]
    have hk' : k = d.length := by omega
    rw [hk', List.drop_length]

/-- On a vector with non-NULL data of the advertised length, an in-range
open-ended slice `vec[k:]` returns the suffix from `k`. -/
lemma getitem_open_slice (v : VectorInfo) (d : List Rat) (k : Nat)
    (hd : v.v_realdata = some d) (hl : v.v_length = d.length) (hk : k ≤ d.length) :
    v.getitem (Key.slice (some (k : Int)) Option.none) = ItemResult.vals (d.drop k) := by
  have h1 : ¬((k : Int) < 0) := by omega
  have h2 : ¬((d.length : Int) > (d.length : Int)) := by omega
  simp [VectorInfo.getitem, truthyOptInt, VectorInfo.lenOf, hl, hd, h1, h2,
    ptrSlice_of_le d k hk]

/-- A slice whose stop is `0` takes the same rewrite path as a stop of
`None` (both are falsy), so `vec[k:0]` computes exactly `vec[k:]`. -/
lemma getitem_zero_stop_eq_open (v : VectorInfo) (k : Option Int) :
    v.getitem (Key.slice k (some 0)) = v.getitem (Key.slice k Option.none) := by
  simp only [VectorInfo.getitem, truthyOptInt]
  norm_num

/-- In-range single-index access returns the element. -/
lemma getitem_int_in_range (v : VectorInfo) (d : List Rat) (j : Nat)
    (hd : v.v_realdata = some d) (hl : v.v_length = d.length) (hj : j < d.length) :
    v.getitem (Key.int (j : Int)) = ItemResult.val (d.getD j 0) := by
  have h1 : ¬((j : Int) < 0) := by omega
  have h2 : ¬((j : Int) ≥ (d.length : Int)) := by omega
  simp [VectorInfo.getitem, VectorInfo.lenOf, hl, hd, h1, h2]

/-- Single-index access at the length raises the bare `IndexError` (the
bounds check precedes the NULL-data check, so no data hypothesis is needed). -/
lemma getitem_int_at_length (v : VectorInfo) (d : List Rat)
    (hl : v.v_length = d.length) :
    v.getitem (Key.int (d.length : Int)) = ItemResult.indexError "" := by
  simp [VectorInfo.getitem, VectorInfo.lenOf, hl]

/-- A negative slice start raises `IndexError("Index cannot be negative")`. -/
lemma getitem_neg_start (v : VectorInfo) (st : Int) (stop : Option Int) (hst : st < 0) :
    v.getitem (Key.slice (some st) stop) =
      ItemResult.indexError "Index cannot be negative" := by
  have hne : st ≠ 0 := by omega
  simp [VectorInfo.getitem, truthyOptInt, hst, hne]

/-- An open-ended slice whose start lies beyond the length does not raise:
the stop is rewritten to the length and the ctypes slice is empty. -/
lemma getitem_start_beyond (v : VectorInfo) (d : List Rat) (st : Nat)
    (hd : v.v_realdata = some d) (hl : v.v_length = d.length) (hst : d.length < st) :
    v.getitem (Key.slice (some (st : Int)) Option.none) = ItemResult.vals [] := by
  have h1 : ¬((st : Int) < 0) := by omega
  have h2 : ¬((d.length : Int) > (d.length : Int)) := by omega
  have h3 : ¬((st : Int) < (d.length : Int)) := by omega
  simp [VectorInfo.getitem, truthyOptInt, VectorInfo.lenOf, hl, hd, h1, h2, ptrSlice, h3]

/- ************************************************************************
   Claim theorems.
   ************************************************************************ -/

/-- Claim C9 (confirmed): for every message and every value of the silent
flag, after `write(msg)` the last-message buffer `_msg` equals `msg`; silent
mode suppresses emission but never skips recording the message. -/
theorem C9_write_records_msg (s : NgState) (msg : String) : (write s msg).msg = msg := by
  by_cases h : s.silent <;> simp [write, h]

/-- Claim C10 (confirmed): on a vector of length `N` with non-null real data,
a slice whose stop is `0` is treated as open-ended — `vec[k:0]` computes
exactly `vec[k:N]`, returning the `N - k` elements from `k`, because the stop
bound is tested for falsiness rather than for being `None`. -/
theorem C10_zero_stop_open_ended (v : VectorInfo) (d : List Rat) (k : Nat)
    (hd : v.v_realdata = some d) (hl : v.v_length = d.length) (hk : k ≤ d.length) :
    v.getitem (Key.slice (some (k : Int)) (some 0)) = ItemResult.vals (d.drop k) ∧
    (d.drop k).length = d.length - k ∧
    v.getitem (Key.slice (some (k : Int)) (some 0)) =
      v.getitem (Key.slice (some (k : Int)) Option.none) := by
  refine ⟨?_, by simp, getitem_zero_stop_eq_open v _⟩
  rw [getitem_zero_stop_eq_open]
  exact getitem_open_slice v d k hd hl hk

/-- Witness for C10 at a concrete vector of length 3 and `k = 1`. -/
theorem C10_witness :
    (VectorInfo.mk "v" (some [1, 2, 3]) 3).getitem (Key.slice (some 1) (some 0)) =
      ItemResult.vals [2, 3] := by
  have h := C10_zero_stop_open_ended (VectorInfo.mk "v" (some [1, 2, 3]) 3) [1, 2, 3] 1
    rfl rfl (by decide)
  simpa using h.1

/-- Counterexample for C6: on a length-3 vector with non-null real data, the
range access `vec[5:]` has an out-of-bounds start but does **not** raise
`IndexError`; the stop is rewritten to the length and the empty list is
returned. -/
theorem C6_counterexample :
    (VectorInfo.mk "v" (some [1, 2, 3]) 3).getitem (Key.slice (some 5) Option.none) =
      ItemResult.vals [] ∧
    ¬∃ m, (VectorInfo.mk "v" (some [1, 2, 3]) 3).getitem (Key.slice (some 5) Option.none) =
      ItemResult.indexError m := by
  have h : (VectorInfo.mk "v" (some [1, 2, 3]) 3).getitem (Key.slice (some 5) Option.none) =
      ItemResult.vals [] := by decide
  refine ⟨h, ?_⟩
  rintro ⟨m, hm⟩
  rw [h] at hm
  exact ItemResult.noConfusion hm

/-- Claim C6 (corrected): for a vector of length `N` with non-null real data,
single-index access at `N - 1` succeeds, access at `N` raises `IndexError`,
and an open-ended slice from `k ≤ N` returns exactly `N - k` elements; but an
out-of-bounds slice start only raises when it is negative — a start beyond
the length yields the empty result instead of raising. -/
theorem C6_indexing (v : VectorInfo) (d : List Rat)
    (hd : v.v_realdata = some d) (hl : v.v_length = d.length) (hpos : 0 < d.length) :
    v.getitem (Key.int ((d.length : Int) - 1)) = ItemResult.val (d.getD (d.length - 1) 0) ∧
    v.getitem (Key.int (d.length : Int)) = ItemResult.indexError "" ∧
    (∀ k : Nat, k ≤ d.length →
      v.getitem (Key.slice (some (k : Int)) Option.none) = ItemResult.vals (d.drop k) ∧
      (d.drop k).length = d.length - k) ∧
    (∀ st : Int, st < 0 →
      v.getitem (Key.slice (some st) Option.none) =
        ItemResult.indexError "Index cannot be negative") ∧
    (∀ st : Nat, d.length < st →
      v.getitem (Key.slice (some (st : Int)) Option.none) = ItemResult.vals []) := by
  refine ⟨?_, getitem_int_at_length v d hl, ?_, ?_, ?_⟩
  · have hcast : (d.length : Int) - 1 = ((d.length - 1 : Nat) : Int) := by omega
    rw [hcast]
    exact getitem_int_in_range v d (d.length - 1) hd hl (by omega)
  · exact fun k hk => ⟨getitem_open_slice v d k hd hl hk, by simp⟩
  · exact fun st hst => getitem_neg_start v st Option.none hst
  · exact fun st hst => getitem_start_beyond v d st hd hl hst

/-- Witness for C6 at a concrete vector of length 3. -/
theorem C6_witness :
    (VectorInfo.mk "v" (some [1, 2, 3]) 3).getitem (Key.int 2) = ItemResult.val 3 ∧
    (VectorInfo.mk "v" (some [1, 2, 3]) 3).getitem (Key.int 3) = ItemResult.indexError "" ∧
    (VectorInfo.mk "v" (some [1, 2, 3]) 3).getitem (Key.slice (some 1) Option.none) =
      ItemResult.vals [2, 3] ∧
    (VectorInfo.mk "v" (some [1, 2, 3]) 3).getitem (Key.slice (some (-1)) Option.none) =
      ItemResult.indexError "Index cannot be negative" := by
  have h := C6_indexing (VectorInfo.mk "v" (some [1, 2, 3]) 3) [1, 2, 3] rfl rfl (by decide)
  refine ⟨?_, ?_, ?_, ?_⟩
  · simpa using h.1
  · simpa using h.2.1
  · simpa using (h.2.2.1 1 (by decide)).1
  · exact h.2.2.2.1 (-1) (by decide)

/-- Counterexample for C3: a raw vector named `R1#branch` keeps its raw name
in the series returned by `get_vector`/`as_series`; it is not renamed to
`i(R1)` there. -/
theorem C3_counterexample :
    (get_vector
        { vecsOf := fun _ => ["r1#branch"]
          vecInfo := fun _ => VectorInfo.mk "R1#branch" (some [1, 2, 3]) 3 }
        "R1#branch").name = "R1#branch" ∧
    ("R1#branch" : String) ≠ "i(R1)" := by
  exact ⟨rfl, by decide⟩

/-- Claim C3 (corrected): the branch-current renaming `<node>#branch ↦
i(<node>)` is applied to the columns of `get_all_vectors`, and `n1` is left
unchanged; but `get_vector`/`as_series` does **not** apply the rule — the
series keeps the raw engine name. -/
theorem C3_branch_rename (e : Engine) (vecname plot : String) :
    (get_vector e vecname).name = (e.vecInfo vecname).v_name ∧
    (get_all_vectors e plot).map Prod.fst =
      (get_all_vecs e plot).map (fun w => normalizeBranch (e.vecInfo w).v_name) ∧
    normalizeBranch "R1#branch" = "i(R1)" ∧
    normalizeBranch "n1" = "n1" := by
  refine ⟨rfl, ?_, by decide, by decide⟩
  simp [get_all_vectors, List.map_map, Function.comp]

/-- Counterexample for C1: dispatching with `silent=True` leaves `_silent`
set to `True` when the native `ngSpice_Command` call raises (the reset on
line 365 never runs), and likewise when `ngSpice_Circ` returns non-zero and
`send_circ` raises the engine-rejected `RuntimeError` before its reset. -/
theorem C1_counterexample :
    (send_cmd (initState false) "run" true CallOutcome.raises).1.silent = true ∧
    (send_cmd (initState false) "run" true CallOutcome.raises).2 = true ∧
    (send_circ (initState false) ["* t", ".end"] (some true) 1).1.silent = true ∧
    (send_circ (initState false) ["* t", ".end"] (some true) 1).2 =
      some PyError.runtimeError := by
  decide

/-- Claim C1 (corrected): `_silent` is cleared after every dispatch that
returns normally, but the source has no try/finally, so on the error exit
paths — a raising native command call, or `send_circ` failing with the
engine-rejected `RuntimeError` — the flag keeps the value set for the call
instead of being reset. -/
theorem C1_silent_reset (s : NgState) (cmd : String) (b : Bool)
    (args : List String) (kw : Option Bool) :
    (send_cmd s cmd b CallOutcome.ok).1.silent = false ∧
    (send_circ s args kw 0).1.silent = false ∧
    (send_cmd s cmd true CallOutcome.raises).1.silent = true ∧
    (send_circ s args (some true) 1).1.silent = true := by
  refine ⟨rfl, ?_, rfl, rfl⟩
  cases kw <;> rfl

/-- Counterexample for C2: on a detached handle, `send_cmd` forwards the
command to the engine without raising and without any diagnostic output —
it silently proceeds. -/
theorem C2_counterexample :
    (send_cmd { initState false with attached := false } "run" false
      CallOutcome.ok).1.engine_calls = ["run"] ∧
    (send_cmd { initState false with attached := false } "run" false
      CallOutcome.ok).2 = false ∧
    (send_cmd { initState false with attached := false } "run" false
      CallOutcome.ok).1.sink = [] ∧
    (send_cmd { initState false with attached := false } "run" false
      CallOutcome.ok).1.printed = [] := by
  decide

/-- Claim C2 (corrected): only `quit` itself checks `_attached` — a repeated
`quit` no-ops with the diagnostic print and makes no engine call; the other
dispatch methods never check attachment and forward to the engine regardless,
with no `AlreadyDetached`-style failure. -/
theorem C2_detached_dispatch (s : NgState) (cmd : String) (b : Bool)
    (o : CallOutcome) (args : List String) (kw : Option Bool)
    (h : s.attached = false) :
    (quit s o).1.printed = s.printed ++ ["DLL already detached..."] ∧
    (quit s o).1.engine_calls = s.engine_calls ∧
    (send_cmd s cmd b o).1.engine_calls = s.engine_calls ++ [cmd] ∧
    (send_cmd s cmd b o).1.printed = s.printed ∧
    (send_circ s args kw 0).1.engine_circs = s.engine_circs ++ [args] := by
  refine ⟨?_, ?_, ?_, ?_, ?_⟩
  · simp [quit, h]
  · simp [quit, h]
  · cases o <;> rfl
  · cases o <;> rfl
  · cases kw <;> rfl

/-- Witness for C2 on a concrete detached state. -/
theorem C2_witness :
    (quit { initState false with attached := false } CallOutcome.ok).1.printed =
      ["DLL already detached..."] ∧
    (send_cmd { initState false with attached := false } "run" false
      CallOutcome.ok).1.engine_calls = ["run"] := by
  have h := C2_detached_dispatch { initState false with attached := false } "run" false
    CallOutcome.ok [] Option.none rfl
  exact ⟨by simpa using h.1, by simpa using h.2.2.1⟩

/-- Counterexample for C7: a circuit whose final line is not `.end` is
forwarded to the engine unchanged and the call returns without any error —
the dispatcher does not reject it. -/
theorem C7_counterexample :
    (send_circ (initState false) ["* title", "R1 0 n1 10k"] Option.none 0).2 =
      Option.none ∧
    (send_circ (initState false) ["* title", "R1 0 n1 10k"] Option.none 0).1.engine_circs =
      [["* title", "R1 0 n1 10k"]] ∧
    ["* title", "R1 0 n1 10k"].getLast? ≠ some ".end" := by
  decide

/-- Claim C7 (corrected): `send_circ` performs no terminator validation — the
`.end` requirement is documented protocol, not an enforced precondition.  Any
list of strings is forwarded to the engine as-is, and the only failure the
dispatcher raises is the `RuntimeError` when `ngSpice_Circ` itself returns a
non-zero status. -/
theorem C7_no_terminator_check (s : NgState) (args : List String) (kw : Option Bool) :
    (send_circ s args kw 0).2 = Option.none ∧
    (send_circ s args kw 0).1.engine_circs = s.engine_circs ++ [args] ∧
    (send_circ s args kw 1).2 = some PyError.runtimeError := by
  refine ⟨?_, ?_, ?_⟩ <;> cases kw <;> rfl

/-- Counterexample for C8: a `stdout:`-tagged line keeps the colon in the
routed remainder (only the six characters `stdout` are stripped), and a line
starting with `stdout` but without a colon — untagged under the claim's
reading — is not routed unchanged. -/
theorem C8_counterexample :
    (ng_send_char_inner (initState false) "stdout:abc").sink = [":abc"] ∧
    (":abc" : String) ≠ "abc" ∧
    (ng_send_char_inner (initState false) "stdoutabc").sink = ["abc"] ∧
    ("abc" : String) ≠ "stdoutabc" := by
  decide

lemma strStartsWith_append_self (p rest : String) :
    strStartsWith (p ++ rest) p = true := by
  simp [strStartsWith, String.toList, String.data_append, List.take_left]

lemma strDrop_append_six (p rest : String) (hp : p.data.length = 6) :
    strDrop (p ++ rest) 6 = rest := by
  simp only [strDrop, String.toList, String.data_append, ← hp, List.drop_left]

/-- Claim C8 (corrected): the recognised tags are the six-character prefixes
`stdout` and `stderr` (no colon).  A line starting with either has exactly
those six characters stripped before routing — so a `stdout:` line keeps its
colon — and only a line starting with neither prefix is routed unchanged. -/
theorem C8_char_routing (s : NgState) (rest value : String)
    (h1 : strStartsWith value "stdout" = false)
    (h2 : strStartsWith value "stderr" = false) :
    ng_send_char_inner s ("stdout" ++ rest) = write s rest ∧
    ng_send_char_inner s ("stderr" ++ rest) = write s rest ∧
    ng_send_char_inner s value = write s value := by
  refine ⟨?_, ?_, ?_⟩
  · simp [ng_send_char_inner, strStartsWith_append_self, strDrop_append_six "stdout" rest rfl]
  · have hso : strStartsWith ("stderr" ++ rest) "stdout" = false := by
      show (((String.mk ("stderr".data ++ rest.data)).toList.take
        ("stdout" : String).toList.length) == ("stdout" : String).toList) = false
      rw [show ("stdout" : String).toList.length = ("stderr" : String).data.length from rfl]
      show ((("stderr".data ++ rest.data).take "stderr".data.length) ==
        ("stdout" : String).toList) = false
      rw [List.take_left]
      decide
    simp [ng_send_char_inner, hso, strStartsWith_append_self,
      strDrop_append_six "stderr" rest rfl]
  · simp [ng_send_char_inner, h1, h2]

/-- Witness for C8 at concrete lines. -/
theorem C8_witness :
    ng_send_char_inner (initState false) ("stdout" ++ " hello") =
      write (initState false) " hello" ∧
    ng_send_char_inner (initState false) "hi" = write (initState false) "hi" := by
  have h := C8_char_routing (initState false) " hello" "hi" (by decide) (by decide)
  exact ⟨h.1, h.2.2⟩

/- ************************************************************************
   Progress tracker lemmas: the three branches of the statistics callback
   while not silent.
   ************************************************************************ -/

/-- First match with no bar open: tracking starts, the tracked percentage is
initialised to 0 (not to the reported value). -/
lemma stat_step_creates (s : NgState) (l nm : String) (p : Rat)
    (hm : matchPercent l = some (nm, p)) (hs : s.silent = false)
    (hpb : s.pbar = Option.none) (hup : s.use_progress_bar = true) :
    ng_send_stat_inner s l = { s with pbar := some nm, pbar_value := 0 } := by
  simp [ng_send_stat_inner, hm, hs, hpb, hup]

/-- Match while tracking, below the finalization threshold: one update with
the raw delta, tracked percentage set to the new value. -/
lemma stat_step_update (s : NgState) (l nm lab : String) (p : Rat)
    (hm : matchPercent l = some (nm, p)) (hs : s.silent = false)
    (hpb : s.pbar = some lab) (hlt : p < 999 / 10) :
    ng_send_stat_inner s l =
      { s with pbar_updates := s.pbar_updates ++ [p - s.pbar_value]
               pbar_value := p } := by
  have hge : ¬(p ≥ 999 / 10) := not_le.mpr hlt
  simp [ng_send_stat_inner, hm, hs, hpb, hge]

/-- Match while tracking, at or above the threshold: the delta update, a
final top-up update to 100, one close, and the bar is cleared. -/
lemma stat_step_final (s : NgState) (l nm lab : String) (p : Rat)
    (hm : matchPercent l = some (nm, p)) (hs : s.silent = false)
    (hpb : s.pbar = some lab) (hge : 999 / 10 ≤ p) :
    ng_send_stat_inner s l =
      { s with pbar_updates := (s.pbar_updates ++ [p - s.pbar_value]) ++ [100 - p]
               pbar_value := p
               pbar_closes := s.pbar_closes + 1
               pbar := Option.none } := by
  simp [ng_send_stat_inner, hm, hs, hpb, hge]

/-- While every fed line matches with a percentage below the threshold, the
tracking invariant is preserved: not silent, the same bar stays open, and no
close happens. -/
lemma runStats_tracking (mid : List (String × Rat)) :
    ∀ (s : NgState) (lab : String),
      s.silent = false → s.pbar = some lab → s.pbar_closes = 0 →
      (∀ pr ∈ mid, ∃ nm, matchPercent pr.1 = some (nm, pr.2)) →
      (∀ pr ∈ mid, pr.2 < 999 / 10) →
      (runStats s (mid.map Prod.fst)).silent = false ∧
      (runStats s (mid.map Prod.fst)).pbar = some lab ∧
      (runStats s (mid.map Prod.fst)).pbar_closes = 0 := by
  induction mid with
  | nil => exact fun s lab hs hpb hc _ _ => ⟨hs, hpb, hc⟩
  | cons pr rest ih =>
    intro s lab hs hpb hc hmatch hlt
    obtain ⟨nm, hm⟩ := hmatch pr (List.mem_cons_self _ _)
    have hstep := stat_step_update s pr.1 nm lab pr.2 hm hs hpb
      (hlt pr (List.mem_cons_self _ _))
    simp only [runStats, List.map_cons, List.foldl_cons] at *
    rw [hstep]
    exact ih _ lab hs hpb hc
      (fun q hq => hmatch q (List.mem_cons_of_mem _ hq))
      (fun q hq => hlt q (List.mem_cons_of_mem _ hq))

/-- Counterexample for C4: a single matching line at 100% (the first match of
the run) only creates the progress bar — the tracked percentage stays 0, not
the last value seen, and no finalization happens at all even though the value
is ≥ 99.9. -/
theorem C4_counterexample :
    (runStats (initState true) ["tran: 100.0%"]).pbar_value = 0 ∧
    (runStats (initState true) ["tran: 100.0%"]).pbar_closes = 0 ∧
    ¬((runStats (initState true) ["tran: 100.0%"]).pbar_value = 100 ∧
      (runStats (initState true) ["tran: 100.0%"]).pbar_closes = 1) := by
  have hm : matchPercent "tran: 100.0%" = some ("tran", 100) := by decide
  have h := stat_step_creates (initState true) "tran: 100.0%" "tran" 100 hm rfl rfl rfl
  have hr : runStats (initState true) ["tran: 100.0%"] =
      { initState true with pbar := some "tran", pbar_value := 0 } := by
    simp only [runStats, List.foldl_cons, List.foldl_nil]
    exact h
  rw [hr]
  refine ⟨rfl, rfl, ?_⟩
  rintro ⟨hv, -⟩
  norm_num at hv

/-- Claim C4 (corrected): with progress reporting enabled and not silent, for
a sequence of at least two matching lines with percentages in [0, 100] in
non-decreasing order whose values before the last are all below 99.9: the
first match only starts tracking (percentage initialised to 0), each later
match sets the tracked percentage to the value seen, so after the run the
tracked percentage equals the last value; the bar is finalized exactly once
iff the last value is ≥ 99.9, at that last line.  (With only one line, or
with matches continuing past a finalization, the original claim fails: the
first match never updates nor finalizes, and tracking restarts after a
close.) -/
theorem C4_progress_tracking (firstp lastp : String × Rat) (mid : List (String × Rat))
    (hmatch : ∀ pr ∈ firstp :: mid ++ [lastp], ∃ nm, matchPercent pr.1 = some (nm, pr.2))
    (_hrange : ∀ pr ∈ firstp :: mid ++ [lastp], 0 ≤ pr.2 ∧ pr.2 ≤ 100)
    (_hmono : List.Chain' (fun a b => a.2 ≤ b.2) (firstp :: mid ++ [lastp]))
    (hmid : ∀ pr ∈ mid, pr.2 < 999 / 10) :
    (runStats (initState true) ((firstp :: mid ++ [lastp]).map Prod.fst)).pbar_value
      = lastp.2 ∧
    (runStats (initState true) ((firstp :: mid ++ [lastp]).map Prod.fst)).pbar_closes
      = (if 999 / 10 ≤ lastp.2 then 1 else 0) ∧
    (runStats (initState true) ((firstp :: mid ++ [lastp]).map Prod.fst)).pbar.isNone
      = decide (999 / 10 ≤ lastp.2) := by
  obtain ⟨nm0, hm0⟩ := hmatch firstp (List.mem_cons_self _ _)
  obtain ⟨nmL, hmL⟩ := hmatch lastp (by simp)
  have h0 := stat_step_creates (initState true) firstp.1 nm0 firstp.2 hm0 rfl rfl rfl
  simp only [runStats, List.map_cons, List.map_append, List.map_cons, List.map_nil,
    List.foldl_cons, List.foldl_append, List.foldl_nil] at h0 ⊢
  rw [h0]
  have hinv := runStats_tracking mid { initState true with pbar := some nm0, pbar_value := 0 }
    nm0 rfl rfl rfl
    (fun q hq => hmatch q (List.mem_cons_of_mem _ (List.mem_append_left _ hq)))
    hmid
  simp only [runStats] at hinv
  by_cases hL : 999 / 10 ≤ lastp.2
  · have hstep := stat_step_final _ lastp.1 nmL nm0 lastp.2 hmL hinv.1 hinv.2.1 hL
    rw [hstep]
    simp [hinv.2.2, hL]
  · have hstep := stat_step_update _ lastp.1 nmL nm0 lastp.2 hmL hinv.1 hinv.2.1
      (not_le.mp hL)
    rw [hstep]
    simp [hinv.2.2, hinv.2.1, hL]

/-- Witness for C4 at the concrete two-line run 50% then 100%. -/
theorem C4_witness :
    (runStats (initState true) ["tran: 50.0%", "tran: 100.0%"]).pbar_value = 100 ∧
    (runStats (initState true) ["tran: 50.0%", "tran: 100.0%"]).pbar_closes = 1 := by
  have h := C4_progress_tracking ("tran: 50.0%", 50) ("tran: 100.0%", 100) []
    (by
      intro pr hpr
      rcases List.mem_cons.mp hpr with h | hpr
      · exact h ▸ ⟨"tran", by decide⟩
      · rcases List.mem_cons.mp hpr with h | hpr
        · exact h ▸ ⟨"tran", by decide⟩
        · exact absurd hpr (List.not_mem_nil pr))
    (by
      intro pr hpr
      rcases List.mem_cons.mp hpr with h | hpr
      · rw [h]; constructor <;> norm_num
      · rcases List.mem_cons.mp hpr with h | hpr
        · rw [h]; constructor <;> norm_num
        · exact absurd hpr (List.not_mem_nil pr))
    (by
      refine List.chain'_cons.mpr ⟨?_, List.chain'_singleton _⟩
      norm_num)
    (by intro pr hpr; exact absurd hpr (List.not_mem_nil pr))
  refine ⟨?_, ?_⟩
  · have := h.1
    simpa using this
  · have := h.2.1
    rw [if_pos (by norm_num)] at this
    simpa using this

/-- Counterexample for C5: while tracking with the bar at 50%, a statistics
line reporting 40% produces a `pbar.update` delta of −10 — negative, not
clamped to zero. -/
theorem C5_counterexample :
    (ng_send_stat_inner { initState true with pbar := some "tran", pbar_value := 50 }
        "tran: 40.0%").pbar_updates = [(-10 : Rat)] ∧
    ((-10 : Rat) < 0) := by
  have hm : matchPercent "tran: 40.0%" = some ("tran", 40) := by decide
  have h := stat_step_update
    { initState true with pbar := some "tran", pbar_value := 50 }
    "tran: 40.0%" "tran" "tran" 40 hm rfl rfl (by norm_num)
  rw [h]
  constructor
  · norm_num [initState]
  · norm_num

/-- Claim C5 (corrected): while tracking, each update applied to the progress
bar is exactly the raw delta `new - previous`; there is no clamping, so a
decreasing percentage yields a negative delta rather than zero. -/
theorem C5_update_delta (s : NgState) (line nm lab : String) (p : Rat)
    (hs : s.silent = false) (hpb : s.pbar = some lab)
    (hm : matchPercent line = some (nm, p)) (hlt : p < 999 / 10) :
    (ng_send_stat_inner s line).pbar_updates =
      s.pbar_updates ++ [p - s.pbar_value] := by
  rw [stat_step_update s line nm lab p hm hs hpb hlt]

/-- Witness for C5: with the bar at 50%, a 60% line produces the delta 10. -/
theorem C5_witness :
    (ng_send_stat_inner { initState true with pbar := some "tran", pbar_value := 50 }
        "tran: 60.0%").pbar_updates = [(10 : Rat)] := by
  have h := C5_update_delta
    { initState true with pbar := some "tran", pbar_value := 50 }
    "tran: 60.0%" "tran" "tran" 60 rfl rfl (by decide) (by norm_num)
  rw [h]
  norm_num [initState]

end Ngspicex
